import Mathlib

/-!
Verification of the expense-tracker MCP server (src/main.py) against its
specification.  The SQLite-backed store is modelled as an in-memory list of
rows plus the AUTOINCREMENT counter; dates are the YYYY-MM-DD strings the
program stores as TEXT (SQLite compares TEXT with byte order, embedded here
as lexicographic order on characters); REAL amounts are modelled as exact
rationals, with the float coercion of a numeric argument the identity.
Exceptions are modelled with Except; each tool wraps its body in a
try/except that turns a raised error into the structured error result.
-/

namespace ExpenseTracker

/-- Lexicographic (byte-order) comparison of character lists, as SQLite
BETWEEN applies to TEXT columns. -/
def charListLE : List Char → List Char → Bool
  | [], _ => true
  | _ :: _, [] => false
  | a :: as, b :: bs =>
    if a = b then charListLE as bs else decide (a.val < b.val)

/-- Order on date strings, SQLite TEXT collation. -/
def strLE (a b : String) : Bool := charListLE a.data b.data

/-- Split a character list on a separator, like the Python str.split used to
read the date groups. -/
def splitOnChar (sep : Char) : List Char → List (List Char)
  | [] => [[]]
  | c :: cs =>
    let r := splitOnChar sep cs
    if c = sep then [] :: r
    else
      match r with
      | [] => [[c]]
      | g :: gs => (c :: g) :: gs

/-- Decimal value of a digit string, most significant first. -/
def digitsVal (l : List Char) : Nat :=
  l.foldl (fun a c => a * 10 + (c.toNat - 48)) 0

/-- Gregorian leap-year test, as the Python datetime module. -/
def isLeap (y : Nat) : Bool := y % 4 == 0 && (y % 100 != 0 || y % 400 == 0)

/-- Number of days in a month, as the Python datetime module. -/
def daysInMonth (y m : Nat) : Nat :=
  if m == 2 then (if isLeap y then 29 else 28)
  else if m == 4 || m == 6 || m == 9 || m == 11 then 30
  else 31

/-- Validity of the (year, month, day) triple parsed from a date string:
the datetime module accepts years 1..9999 and days within the month. -/
def validYMD (y m d : Nat) : Bool :=
  decide (1 ≤ y) && decide (y ≤ 9999) && decide (1 ≤ m) && decide (m ≤ 12)
    && decide (1 ≤ d) && decide (d ≤ daysInMonth y m)

/-- A strptime month or day field (%m, %d): a nonempty digit group of
bounded width, one or two digits. -/
def groupOK (g : List Char) (maxLen : Nat) : Bool :=
  g.all Char.isDigit && decide (1 ≤ g.length) && decide (g.length ≤ maxLen)

/-- The strptime year field: %Y matches exactly four digits, so years below
1000 must be zero-padded to width four to parse. -/
def yearGroupOK (g : List Char) : Bool :=
  g.all Char.isDigit && decide (g.length = 4)

/-- Embeds validate_date, i.e. strptime with format %Y-%m-%d: three
dash-separated digit groups (year exactly 4 digits, month and day one or
two), whose parsed numbers form a real calendar date.  Returns false exactly
when validate_date raises ValueError. -/
def validDate (s : String) : Bool :=
  match splitOnChar '-' s.data with
  | [ys, ms, ds] =>
    yearGroupOK ys && groupOK ms 2 && groupOK ds 2
      && validYMD (digitsVal ys) (digitsVal ms) (digitsVal ds)
  | _ => false

/-- Embeds validate_date as the raising helper the tools call. -/
def validateDate (s : String) : Except String Unit :=
  if validDate s then Except.ok () else Except.error ("Date must be in YYYY-MM-DD format")

/-- One row of the expenses table. -/
structure Record where
  id : Nat
  date : String
  amount : ℚ
  category : String
  subcategory : String
  note : String
deriving Repr, DecidableEq

/-- Database state: the stored rows plus the next AUTOINCREMENT id. -/
structure DB where
  rows : List Record
  nextId : Nat
deriving Repr, DecidableEq

def DB.empty : DB := ⟨[], 1⟩

/-- Well-formed store: every assigned id is below the AUTOINCREMENT counter
(true of every state SQLite produces). -/
def DB.WF (db : DB) : Prop := ∀ r ∈ db.rows, r.id < db.nextId

/-- Embeds the inclusive range filter date BETWEEN ? AND ? (TEXT byte order). -/
def inRange (s e : String) (r : Record) : Bool := strLE s r.date && strLE r.date e

/-- Rows matching the inclusive date range, in table order. -/
def rowsInRange (db : DB) (s e : String) : List Record :=
  db.rows.filter (inRange s e)

/-- Truthiness of an optional string argument (the if date: tests): None and
the empty string are falsy. -/
def truthyStr : Option String → Bool
  | none => false
  | some s => decide (s ≠ "")

/-- Truthiness of an optional numeric argument (the if amount: test): None
and zero are falsy. -/
def truthyQ : Option ℚ → Bool
  | none => false
  | some q => decide (q ≠ 0)

/-- Result of add_expense. -/
inductive AddResult
  | ok (id : Nat)
  | error (msg : String)
deriving Repr, DecidableEq

/-- Result of read_expense. -/
inductive ReadResult
  | found (r : Record)
  | notFound
  | error (msg : String)
deriving Repr, DecidableEq

/-- Result of update_expense. -/
inductive UpdateResult
  | ok
  | noUpdateFields
  | error (msg : String)
deriving Repr, DecidableEq

/-- Result of delete_expense. -/
inductive DeleteResult
  | ok
  | error (msg : String)
deriving Repr, DecidableEq

/-- One category/total entry of a summary. -/
structure CatTotal where
  category : String
  total : ℚ
deriving Repr, DecidableEq

/-- Result of budget_alert. -/
structure BudgetResult where
  total_spent : ℚ
  budget_limit : ℚ
  status : String
deriving Repr, DecidableEq

/-- Result of export_csv. -/
inductive ExportResult
  | exported (file : String)
  | error (msg : String)
deriving Repr, DecidableEq

/-- Result of health_check. -/
structure HealthResult where
  status : String
  db_path : String
deriving Repr, DecidableEq

/-- Embeds add_expense(date, amount, category, subcategory, note): validates
the date, inserts the row with the next AUTOINCREMENT id, returns that id. -/
def add_expense (db : DB) (date : String) (amount : ℚ) (category subcategory note : String) :
    AddResult × DB :=
  match validateDate date with
  | .error e => (.error e, db)
  | .ok _ =>
    let r : Record := ⟨db.nextId, date, amount, category, subcategory, note⟩
    (.ok db.nextId, ⟨db.rows ++ [r], db.nextId + 1⟩)

/-- Embeds read_expense(expense_id): SELECT by id, fetchone. -/
def read_expense (db : DB) (expense_id : Nat) : ReadResult :=
  match db.rows.find? (fun r => r.id == expense_id) with
  | none => .notFound
  | some r => .found r

/-- The SET clause of update_expense: each truthy field overwrites the
stored one. -/
def applyFields (r : Record) (date : Option String) (amount : Option ℚ)
    (category subcategory note : Option String) : Record :=
  { r with
    date := if truthyStr date then date.getD r.date else r.date
    amount := if truthyQ amount then amount.getD r.amount else r.amount
    category := if truthyStr category then category.getD r.category else r.category
    subcategory := if truthyStr subcategory then subcategory.getD r.subcategory else r.subcategory
    note := if truthyStr note then note.getD r.note else r.note }

/-- Embeds update_expense(expense_id, date, amount, category, subcategory,
note), every field optional and defaulting to None: collects the truthy
arguments into the SET clause (validating date when truthy), returns the
no_update_fields result when none is truthy, else updates the matching row. -/
def update_expense (db : DB) (expense_id : Nat) (date : Option String) (amount : Option ℚ)
    (category subcategory note : Option String) : UpdateResult × DB :=
  if truthyStr date && !(validDate (date.getD (""))) then
    (.error ("Date must be in YYYY-MM-DD format"), db)
  else if !(truthyStr date || truthyQ amount || truthyStr category
      || truthyStr subcategory || truthyStr note) then
    (.noUpdateFields, db)
  else
    (.ok, ⟨db.rows.map (fun r =>
        if r.id == expense_id then applyFields r date amount category subcategory note else r),
      db.nextId⟩)

/-- Embeds delete_expense(expense_id): DELETE by id; ok even when absent. -/
def delete_expense (db : DB) (expense_id : Nat) : DeleteResult × DB :=
  (.ok, ⟨db.rows.filter (fun r => r.id != expense_id), db.nextId⟩)

/-- The ORDER BY date ASC relation of list_expenses. -/
def dateAsc (a b : Record) : Prop := strLE a.date b.date = true

instance : DecidableRel dateAsc := fun a b => by unfold dateAsc; infer_instance

/-- Embeds list_expenses(start_date, end_date): validates both bounds,
returns the rows of the inclusive range ordered ascending by date. -/
def list_expenses (db : DB) (start_date end_date : String) : Except String (List Record) :=
  match validateDate start_date with
  | .error e => .error e
  | .ok _ =>
    match validateDate end_date with
    | .error e => .error e
    | .ok _ => .ok (List.insertionSort dateAsc (rowsInRange db start_date end_date))

/-- Embeds SUM(amount) over the rows of one category. -/
def totalFor (rows : List Record) (c : String) : ℚ :=
  ((rows.filter (fun r => r.category = c)).map Record.amount).sum

/-- The distinct categories of a row set (GROUP BY category). -/
def cats (rows : List Record) : List String := (rows.map Record.category).dedup

/-- The ORDER BY total DESC relation. -/
def totalDesc (a b : CatTotal) : Prop := b.total ≤ a.total

instance : DecidableRel totalDesc := fun a b => by unfold totalDesc; infer_instance

instance : IsTotal CatTotal totalDesc :=
  ⟨fun a b => le_total b.total a.total⟩

instance : IsTrans CatTotal totalDesc :=
  ⟨fun _ _ _ h1 h2 => le_trans h2 h1⟩

/-- Embeds the grouped query SELECT category, SUM(amount) ... GROUP BY
category ORDER BY total DESC. -/
def groupTotals (rows : List Record) : List CatTotal :=
  List.insertionSort totalDesc ((cats rows).map (fun c => ⟨c, totalFor rows c⟩))

/-- Embeds summarize(start_date, end_date, category), category defaulting to
None: validates both bounds; appends the category filter only when category
is truthy (so None and the empty string both mean no filter); groups by
category and orders descending by total. -/
def summarize (db : DB) (start_date end_date : String) (category : Option String) :
    Except String (List CatTotal) :=
  match validateDate start_date with
  | .error e => .error e
  | .ok _ =>
    match validateDate end_date with
    | .error e => .error e
    | .ok _ =>
      let rows := rowsInRange db start_date end_date
      let rows := if truthyStr category then rows.filter (fun r => r.category = category.getD ("")) else rows
      .ok (groupTotals rows)

/-- Decimal digit character, zero through nine. -/
def digitChar (n : Nat) : Char := Char.ofNat (48 + n)

/-- Fuel-driven digit expansion; the fuel bounds the number of digits. -/
def natDigitsAux : Nat → Nat → List Char
  | 0, _ => []
  | fuel + 1, n =>
    if n < 10 then [digitChar n]
    else natDigitsAux fuel (n / 10) ++ [digitChar (n % 10)]

/-- Decimal digits of a natural number, most significant first: the Python
str of a non-negative integer. -/
def natDigits (n : Nat) : List Char := natDigitsAux (n + 1) n

/-- String form of a natural number, Python str. -/
def natStr (n : Nat) : String := ⟨natDigits n⟩

/-- Embeds str.zfill(w): left-pad with '0' to width w. -/
def zfill (w : Nat) (s : String) : String :=
  ⟨List.replicate (w - s.data.length) '0' ++ s.data⟩

/-- The year-month-01 start bound built by monthly_report. -/
def monthStartStr (y m : Nat) : String :=
  natStr y ++ "-" ++ zfill 2 (natStr m) ++ "-01"

/-- The year-month-31 end bound built by monthly_report. -/
def monthEndStr (y m : Nat) : String :=
  natStr y ++ "-" ++ zfill 2 (natStr m) ++ "-31"

/-- Embeds monthly_report(year, month): builds the literal day-01/day-31
bounds and delegates to summarize (whose result, error or not, is returned
as is). -/
def monthly_report (db : DB) (year month : Nat) : Except String (List CatTotal) :=
  summarize db (monthStartStr year month) (monthEndStr year month) none

/-- SQLite LIMIT semantics: a negative limit means no limit, a non-negative
one keeps the first n rows. -/
def sqlLimit {α : Type} (n : Int) (l : List α) : List α :=
  if n < 0 then l else l.take n.toNat

/-- Embeds top_spending_categories(start_date, end_date, limit), limit
defaulting to 3: the same grouped, descending-ordered totals as summarize,
truncated by the SQLite LIMIT int(limit). -/
def top_spending_categories (db : DB) (start_date end_date : String) (limit : Int) :
    Except String (List CatTotal) :=
  match validateDate start_date with
  | .error e => .error e
  | .ok _ =>
    match validateDate end_date with
    | .error e => .error e
    | .ok _ => .ok (sqlLimit limit (groupTotals (rowsInRange db start_date end_date)))

/-- Embeds SUM(amount) over the rows of one calendar day. -/
def dayTotal (rows : List Record) (d : String) : ℚ :=
  ((rows.filter (fun r => r.date = d)).map Record.amount).sum

/-- The distinct dates of a row set (GROUP BY date). -/
def dates (rows : List Record) : List String := (rows.map Record.date).dedup

/-- Round to the nearest integer, ties to even: the Python built-in round. -/
def roundHalfEven (q : ℚ) : ℤ :=
  if q - ⌊q⌋ < 1/2 then ⌊q⌋
  else if q - ⌊q⌋ > 1/2 then ⌊q⌋ + 1
  else if ⌊q⌋ % 2 = 0 then ⌊q⌋ else ⌊q⌋ + 1

/-- Rounding to two decimal places, the Python round(x, 2). -/
def round2 (q : ℚ) : ℚ := (roundHalfEven (q * 100) : ℚ) / 100

/-- Embeds daily_average(start_date, end_date): per-day sums over the range
(GROUP BY date), then the rounded mean when any day has an expense, else the
integer zero. -/
def daily_average (db : DB) (start_date end_date : String) : Except String ℚ :=
  match validateDate start_date with
  | .error e => .error e
  | .ok _ =>
    match validateDate end_date with
    | .error e => .error e
    | .ok _ =>
      let rows := rowsInRange db start_date end_date
      let values := (dates rows).map (dayTotal rows)
      .ok (if values.isEmpty then 0 else round2 (values.sum / values.length))

/-- Embeds budget_alert(start_date, end_date, limit): sums the totals of the
unfiltered summary; iterating an error dict raises a TypeError, which the
wrapper converts to an error result. -/
def budget_alert (db : DB) (start_date end_date : String) (limit : ℚ) :
    Except String BudgetResult :=
  match summarize db start_date end_date none with
  | .error _ => .error ("string indices must be integers")
  | .ok summary =>
    let total := (summary.map CatTotal.total).sum
    .ok ⟨total, limit, if total > limit then ("ALERT") else ("SAFE")⟩

/-- Embeds export_csv(start_date, end_date): writes the range listing to a
CSV file (the write itself is not modelled).  When list_expenses returned an
error dict, indexing it with 0 raises KeyError; when the listing is empty,
taking the header from the first row raises IndexError; both are converted
to error results. -/
def export_csv (db : DB) (start_date end_date : String) : ExportResult :=
  match list_expenses db start_date end_date with
  | .error _ => .error ("0")
  | .ok [] => .error ("list index out of range")
  | .ok (_ :: _) => .exported ("expenses_export.csv")

/-- Embeds health_check(): static liveness report. -/
def health_check : HealthResult := ⟨"running", "expenses.db"⟩

/-- A store with one Food expense of amount 10 on 2024-01-05. -/
def db1 : DB := ⟨[⟨1, "2024-01-05", 10, "Food", "", ""⟩], 2⟩

/-- A store with one February expense. -/
def febDB : DB := ⟨[⟨1, "2024-02-10", 20, "Food", "", ""⟩], 2⟩

/-- The three-record scenario of the specification: two Food expenses and a
Transport expense across 2024-03-01 and 2024-03-02. -/
def scenarioDB : DB :=
  ⟨[⟨1, "2024-03-01", 50, "Food", "", ""⟩,
    ⟨2, "2024-03-02", 30, "Food", "", ""⟩,
    ⟨3, "2024-03-01", 20, "Transport", "", ""⟩], 4⟩


theorem validateDate_ok {s : String} (h : validDate s = true) : validateDate s = Except.ok () := by
  simp [validateDate, h]

theorem validateDate_err {s : String} (h : validDate s = false) :
    validateDate s = Except.error ("Date must be in YYYY-MM-DD format") := by
  simp [validateDate, h]

theorem summarize_ok (db : DB) (s e : String) (hs : validDate s = true) (he : validDate e = true) :
    summarize db s e none = .ok (groupTotals (rowsInRange db s e)) := by
  simp [summarize, validateDate_ok hs, validateDate_ok he, truthyStr]

theorem summarize_err_end (db : DB) (s e : String) (c : Option String)
    (hs : validDate s = true) (he : validDate e = false) :
    summarize db s e c = .error ("Date must be in YYYY-MM-DD format") := by
  simp [summarize, validateDate_ok hs, validateDate_err he]

theorem summarize_err_start (db : DB) (s e : String) (c : Option String)
    (hs : validDate s = false) :
    summarize db s e c = .error ("Date must be in YYYY-MM-DD format") := by
  simp [summarize, validateDate_err hs]

theorem list_expenses_ok (db : DB) (s e : String)
    (hs : validDate s = true) (he : validDate e = true) :
    list_expenses db s e = .ok (List.insertionSort dateAsc (rowsInRange db s e)) := by
  simp [list_expenses, validateDate_ok hs, validateDate_ok he]

/-- C10: an empty-string category filter is treated exactly like an absent
one: summarize with the empty string equals summarize with no category, for
every store and every pair of bounds, so records whose category is the empty
string cannot be selected by the filter. -/
theorem summarize_empty_category_filter (db : DB) (s e : String) :
    summarize db s e (some ("")) = summarize db s e none := by
  simp [summarize, truthyStr]

/-- C2, code behaviour at the failing input: on a store holding record 1,
update_expense with amount explicitly zero and no other field is treated as
having no supplied fields; it returns the no_update_fields result and leaves
the store unchanged, contradicting the requirement that an explicit zero be
applied. -/
theorem update_expense_zero_amount_no_update :
    update_expense db1 1 none (some 0) none none none = (.noUpdateFields, db1) := rfl

theorem add_read_core (db : DB) (d : String) (a : ℚ) (c sc n : String)
    (hd : validDate d = true) (hwf : db.WF) :
    add_expense db d a c sc n =
      (.ok db.nextId, ⟨db.rows ++ [⟨db.nextId, d, a, c, sc, n⟩], db.nextId + 1⟩) ∧
    read_expense ⟨db.rows ++ [⟨db.nextId, d, a, c, sc, n⟩], db.nextId + 1⟩ db.nextId =
      .found ⟨db.nextId, d, a, c, sc, n⟩ := by
  constructor
  · simp [add_expense, validateDate_ok hd]
  · unfold read_expense
    have hnone : db.rows.find? (fun r => r.id == db.nextId) = none := by
      rw [List.find?_eq_none]
      intro r hr
      have hlt := hwf r hr
      simp only [beq_iff_eq]
      omega
    simp [List.find?_append, hnone, List.find?]


example : (⌊(25/2 : ℚ)⌋ : ℤ) = 12 := by norm_num [Int.floor_eq_iff]
example : round2 (1/8) = 3/25 := by
  norm_num [round2, roundHalfEven, Int.floor_eq_iff]
example : round2 (1/8) ≠ (1/8 : ℚ) := by
  norm_num [round2, roundHalfEven, Int.floor_eq_iff]

/-- C5: inserting a valid record (valid date, numeric amount, non-empty
category) into a well-formed store and reading back the returned id yields a
record equal to the input in every field except the server-assigned id;
passing the empty-string defaults for subcategory and note reads back as
empty strings. -/
theorem add_then_read_roundtrip (db : DB) (d : String) (a : ℚ) (c sc n : String)
    (hd : validDate d = true) (_hc : c ≠ "") (hwf : db.WF) :
    ∃ (i : Nat) (db' : DB),
      add_expense db d a c sc n = (.ok i, db') ∧
      read_expense db' i = .found ⟨i, d, a, c, sc, n⟩ :=
  ⟨db.nextId, _, (add_read_core db d a c sc n hd hwf).1, (add_read_core db d a c sc n hd hwf).2⟩

/-- C4 as amended: the persisted amount read back after add_expense equals
the supplied amount exactly (the float coercion), with no rounding to a
two-decimal fixed-point representation. -/
theorem add_expense_persists_exact_amount (db : DB) (d : String) (a : ℚ) (c sc n : String)
    (hd : validDate d = true) (hwf : db.WF) :
    ∃ (i : Nat) (db' : DB) (r : Record),
      add_expense db d a c sc n = (.ok i, db') ∧
      read_expense db' i = .found r ∧ r.amount = a :=
  ⟨db.nextId, _, _, (add_read_core db d a c sc n hd hwf).1,
    (add_read_core db d a c sc n hd hwf).2, rfl⟩

/-- C4 counterexample: adding an expense of one eighth persists and reads
back exactly one eighth, which is not a two-decimal value: rounding it to
two decimal places changes it, so the stored amount is not the two-decimal
coercion of the supplied amount. -/
theorem amount_not_two_decimal_counterexample :
    add_expense DB.empty ("2024-01-01") (1/8) "Food" "" "" =
      (.ok 1, ⟨[⟨1, "2024-01-01", 1/8, "Food", "", ""⟩], 2⟩) ∧
    read_expense ⟨[⟨1, "2024-01-01", 1/8, "Food", "", ""⟩], 2⟩ 1 =
      .found ⟨1, "2024-01-01", 1/8, "Food", "", ""⟩ ∧
    round2 (1/8) ≠ (1/8 : ℚ) := by
  refine ⟨?_, ?_, ?_⟩
  · exact (add_read_core DB.empty ("2024-01-01") (1/8) "Food" "" "" (by decide) (by simp [DB.WF, DB.empty])).1
  · exact (add_read_core DB.empty ("2024-01-01") (1/8) "Food" "" "" (by decide) (by simp [DB.WF, DB.empty])).2
  · norm_num [round2, roundHalfEven, Int.floor_eq_iff]

/-- C3 as amended: a non-positive limit is not rejected; the limit is handed
to the SQLite LIMIT clause, so for any integer limit the result is the full
summarize sequence when the limit is negative and its first limit entries
when it is non-negative (hence the empty sequence for limit zero). -/
theorem top_spending_categories_limit (db : DB) (s e : String) (lim : Int)
    (hs : validDate s = true) (he : validDate e = true) :
    ∃ entries, summarize db s e none = .ok entries ∧
      top_spending_categories db s e lim =
        .ok (if lim < 0 then entries else entries.take lim.toNat) := by
  refine ⟨groupTotals (rowsInRange db s e), summarize_ok db s e hs he, ?_⟩
  simp only [top_spending_categories, validateDate_ok hs, validateDate_ok he, sqlLimit]

/-- C3 counterexample: with one Food record in range,
top_spending_categories with limit 0 returns the empty list and with limit
-1 returns the full category list; neither call produces a ValidationError
style error result. -/
theorem top_spending_nonpositive_counterexample :
    top_spending_categories db1 ("2024-01-01") "2024-01-31" 0 = .ok [] ∧
    top_spending_categories db1 ("2024-01-01") "2024-01-31" (-1) = .ok [⟨"Food", 10⟩] := by
  constructor
  · simp [top_spending_categories, validateDate, sqlLimit,
      (show validDate ("2024-01-01") = true by decide), (show validDate ("2024-01-31") = true by decide)]
  · norm_num [top_spending_categories, validateDate, sqlLimit, groupTotals, rowsInRange, db1,
      inRange, cats, totalFor, List.insertionSort, List.filter, List.dedup,
      (show validDate ("2024-01-01") = true by decide), (show validDate ("2024-01-31") = true by decide),
      (show strLE ("2024-01-01") "2024-01-05" = true by decide),
      (show strLE ("2024-01-05") "2024-01-31" = true by decide)]


/-- C9: every exposed operation, on every store and every input, returns one
of its documented structured result shapes (success shape, distinguished
non-error status, or an error result) and never a raw exception: the
try/except wrapper of each tool converts every raised error into the
structured error result. -/
theorem all_operations_structured :
    (∀ db d a c sc n, (∃ i, (add_expense db d a c sc n).1 = .ok i) ∨
        (∃ msg, (add_expense db d a c sc n).1 = .error msg)) ∧
    (∀ db i, (∃ r, read_expense db i = .found r) ∨ read_expense db i = .notFound ∨
        (∃ msg, read_expense db i = .error msg)) ∧
    (∀ db i d a c sc n, (update_expense db i d a c sc n).1 = .ok ∨
        (update_expense db i d a c sc n).1 = .noUpdateFields ∨
        (∃ msg, (update_expense db i d a c sc n).1 = .error msg)) ∧
    (∀ db i, (delete_expense db i).1 = .ok ∨ (∃ msg, (delete_expense db i).1 = .error msg)) ∧
    (∀ db s e, (∃ rows, list_expenses db s e = .ok rows) ∨
        (∃ msg, list_expenses db s e = .error msg)) ∧
    (∀ db s e c, (∃ entries, summarize db s e c = .ok entries) ∨
        (∃ msg, summarize db s e c = .error msg)) ∧
    (∀ db y mo, (∃ entries, monthly_report db y mo = .ok entries) ∨
        (∃ msg, monthly_report db y mo = .error msg)) ∧
    (∀ db s e lim, (∃ entries, top_spending_categories db s e lim = .ok entries) ∨
        (∃ msg, top_spending_categories db s e lim = .error msg)) ∧
    (∀ db s e, (∃ v, daily_average db s e = .ok v) ∨
        (∃ msg, daily_average db s e = .error msg)) ∧
    (∀ db s e lim, (∃ res, budget_alert db s e lim = .ok res) ∨
        (∃ msg, budget_alert db s e lim = .error msg)) ∧
    (∀ db s e, (∃ f, export_csv db s e = .exported f) ∨
        (∃ msg, export_csv db s e = .error msg)) ∧
    health_check.status = "running" := by
  refine ⟨?_, ?_, ?_, ?_, ?_, ?_, ?_, ?_, ?_, ?_, ?_, rfl⟩
  · intro db d a c sc n
    cases h : (add_expense db d a c sc n).1 with
    | ok i => exact .inl ⟨i, rfl⟩
    | error msg => exact .inr ⟨msg, rfl⟩
  · intro db i
    cases h : read_expense db i with
    | found r => exact .inl ⟨r, rfl⟩
    | notFound => exact .inr (.inl rfl)
    | error msg => exact .inr (.inr ⟨msg, rfl⟩)
  · intro db i d a c sc n
    cases h : (update_expense db i d a c sc n).1 with
    | ok => exact .inl rfl
    | noUpdateFields => exact .inr (.inl rfl)
    | error msg => exact .inr (.inr ⟨msg, rfl⟩)
  · intro db i
    cases h : (delete_expense db i).1 with
    | ok => exact .inl rfl
    | error msg => exact .inr ⟨msg, rfl⟩
  · intro db s e
    cases h : list_expenses db s e with
    | ok rows => exact .inl ⟨rows, rfl⟩
    | error msg => exact .inr ⟨msg, rfl⟩
  · intro db s e c
    cases h : summarize db s e c with
    | ok entries => exact .inl ⟨entries, rfl⟩
    | error msg => exact .inr ⟨msg, rfl⟩
  · intro db y mo
    cases h : monthly_report db y mo with
    | ok entries => exact .inl ⟨entries, rfl⟩
    | error msg => exact .inr ⟨msg, rfl⟩
  · intro db s e lim
    cases h : top_spending_categories db s e lim with
    | ok entries => exact .inl ⟨entries, rfl⟩
    | error msg => exact .inr ⟨msg, rfl⟩
  · intro db s e
    cases h : daily_average db s e with
    | ok v => exact .inl ⟨v, rfl⟩
    | error msg => exact .inr ⟨msg, rfl⟩
  · intro db s e lim
    cases h : budget_alert db s e lim with
    | ok res => exact .inl ⟨res, rfl⟩
    | error msg => exact .inr ⟨msg, rfl⟩
  · intro db s e
    cases h : export_csv db s e with
    | exported f => exact .inl ⟨f, rfl⟩
    | error msg => exact .inr ⟨msg, rfl⟩


theorem perm_filter_map_sum {l1 l2 : List Record} (p : Record → Bool) (h : l1.Perm l2) :
    ((l1.filter p).map Record.amount).sum = ((l2.filter p).map Record.amount).sum :=
  ((h.filter p).map Record.amount).sum_eq

theorem groupTotals_perm (rows : List Record) :
    (groupTotals rows).Perm ((cats rows).map (fun c => ⟨c, totalFor rows c⟩)) :=
  List.perm_insertionSort totalDesc _

theorem groupTotals_sorted (rows : List Record) :
    (groupTotals rows).Pairwise totalDesc :=
  List.sorted_insertionSort totalDesc _

/-- C6: for valid bounds, the unfiltered summarize returns exactly one entry
per category occurring among the records returned by list_expenses over the
same range, each total equal to the sum of amount over that category within
the range, ordered descending by total. -/
theorem summarize_matches_list_expenses (db : DB) (s e : String)
    (hs : validDate s = true) (he : validDate e = true) :
    ∃ (rows : List Record) (entries : List CatTotal),
      list_expenses db s e = .ok rows ∧
      summarize db s e none = .ok entries ∧
      (∀ c : String, (∃ t, CatTotal.mk c t ∈ entries) ↔ c ∈ rows.map Record.category) ∧
      (entries.map CatTotal.category).Nodup ∧
      (∀ ct ∈ entries,
        ct.total = ((rows.filter (fun r => r.category = ct.category)).map Record.amount).sum) ∧
      entries.Pairwise (fun a b => b.total ≤ a.total) := by
  have hperm : (List.insertionSort dateAsc (rowsInRange db s e)).Perm (rowsInRange db s e) :=
    List.perm_insertionSort _ _
  have hg := groupTotals_perm (rowsInRange db s e)
  refine ⟨List.insertionSort dateAsc (rowsInRange db s e), groupTotals (rowsInRange db s e),
    list_expenses_ok db s e hs he, summarize_ok db s e hs he, ?_, ?_, ?_, ?_⟩
  · intro c
    constructor
    · rintro ⟨t, ht⟩
      obtain ⟨c', hc', heq⟩ := List.mem_map.1 (hg.mem_iff.1 ht)
      obtain ⟨rfl, -⟩ : c' = c ∧ totalFor (rowsInRange db s e) c' = t := by
        constructor <;> injection heq
      exact ((hperm.map Record.category).mem_iff).2 (List.mem_dedup.1 hc')
    · intro hc
      have hc0 : c ∈ cats (rowsInRange db s e) :=
        List.mem_dedup.2 (((hperm.map Record.category).mem_iff).1 hc)
      exact ⟨totalFor (rowsInRange db s e) c, hg.mem_iff.2 (List.mem_map_of_mem _ hc0)⟩
  · have hmp := hg.map CatTotal.category
    rw [List.map_map] at hmp
    have : (CatTotal.category ∘ fun c => CatTotal.mk c (totalFor (rowsInRange db s e) c)) =
        fun c => c := rfl
    rw [this, List.map_id'] at hmp
    exact hmp.nodup_iff.2 (List.nodup_dedup _)
  · intro ct hct
    obtain ⟨c', hc', heq⟩ := List.mem_map.1 (hg.mem_iff.1 hct)
    subst heq
    exact (perm_filter_map_sum _ hperm).symm
  · exact groupTotals_sorted (rowsInRange db s e)


/-- C7: for valid bounds, budget_alert reports total_spent equal to the sum
of all category totals of summarize, echoes the limit, and its status is
ALERT exactly when total_spent strictly exceeds the limit; at equality the
status is SAFE. -/
theorem budget_alert_threshold (db : DB) (s e : String) (lim : ℚ)
    (hs : validDate s = true) (he : validDate e = true) :
    ∃ (entries : List CatTotal) (res : BudgetResult),
      summarize db s e none = .ok entries ∧
      budget_alert db s e lim = .ok res ∧
      res.total_spent = (entries.map CatTotal.total).sum ∧
      res.budget_limit = lim ∧
      (res.status = "ALERT" ↔ lim < res.total_spent) ∧
      (res.total_spent = lim → res.status = "SAFE") := by
  refine ⟨groupTotals (rowsInRange db s e),
    ⟨((groupTotals (rowsInRange db s e)).map CatTotal.total).sum, lim,
      if ((groupTotals (rowsInRange db s e)).map CatTotal.total).sum > lim
        then ("ALERT") else ("SAFE")⟩,
    summarize_ok db s e hs he, ?_, rfl, rfl, ?_, ?_⟩
  · simp only [budget_alert, summarize_ok db s e hs he]
  · show (if ((groupTotals (rowsInRange db s e)).map CatTotal.total).sum > lim
        then ("ALERT") else ("SAFE")) = "ALERT" ↔
      lim < ((groupTotals (rowsInRange db s e)).map CatTotal.total).sum
    by_cases h : ((groupTotals (rowsInRange db s e)).map CatTotal.total).sum > lim
    · rw [if_pos h]
      exact iff_of_true rfl h
    · rw [if_neg h]
      exact iff_of_false (by decide) h
  · show ((groupTotals (rowsInRange db s e)).map CatTotal.total).sum = lim →
      (if ((groupTotals (rowsInRange db s e)).map CatTotal.total).sum > lim
        then ("ALERT") else ("SAFE")) = "SAFE"
    intro heq
    rw [heq, if_neg (lt_irrefl lim)]

/-- C8: for valid bounds, daily_average is zero when no record falls in the
range, and otherwise the two-decimal rounding of the arithmetic mean of the
per-day sums taken only over the days that have at least one expense. -/
theorem daily_average_mean_of_days (db : DB) (s e : String)
    (hs : validDate s = true) (he : validDate e = true) :
    ∃ rows : List Record,
      list_expenses db s e = .ok rows ∧
      (rows = [] → daily_average db s e = .ok 0) ∧
      (rows ≠ [] → ∃ days : List String,
        days ≠ [] ∧ days.Nodup ∧ (∀ d, d ∈ days ↔ d ∈ rows.map Record.date) ∧
        daily_average db s e =
          .ok (round2 ((days.map (fun d =>
              ((rows.filter (fun r => r.date = d)).map Record.amount).sum)).sum
            / (days.length : ℚ)))) := by
  have hperm : (List.insertionSort dateAsc (rowsInRange db s e)).Perm (rowsInRange db s e) :=
    List.perm_insertionSort _ _
  have hda : daily_average db s e =
      .ok (if ((dates (rowsInRange db s e)).map (dayTotal (rowsInRange db s e))).isEmpty
        then 0
        else round2 (((dates (rowsInRange db s e)).map (dayTotal (rowsInRange db s e))).sum
          / ((dates (rowsInRange db s e)).map (dayTotal (rowsInRange db s e))).length)) := by
    simp only [daily_average, validateDate_ok hs, validateDate_ok he]
  refine ⟨List.insertionSort dateAsc (rowsInRange db s e), list_expenses_ok db s e hs he, ?_, ?_⟩
  · intro hnil
    have h0 : rowsInRange db s e = [] := by
      rw [hnil] at hperm
      exact hperm.symm.eq_nil
    rw [hda]
    simp [dates, h0]
  · intro hne
    have h0 : rowsInRange db s e ≠ [] := by
      intro h
      exact hne (by rw [h]; rfl)
    have hmemdates : ∀ d, d ∈ dates (rowsInRange db s e) ↔
        d ∈ (List.insertionSort dateAsc (rowsInRange db s e)).map Record.date := by
      intro d
      rw [dates, List.mem_dedup]
      exact ((hperm.map Record.date).mem_iff).symm
    refine ⟨dates (rowsInRange db s e), ?_, List.nodup_dedup _, hmemdates, ?_⟩
    · obtain ⟨r, hr⟩ := List.exists_mem_of_ne_nil _ h0
      exact List.ne_nil_of_mem (List.mem_dedup.2 (List.mem_map_of_mem _ hr))
    · rw [hda]
      have hmap : (dates (rowsInRange db s e)).map (dayTotal (rowsInRange db s e)) =
          (dates (rowsInRange db s e)).map (fun d =>
            (((List.insertionSort dateAsc (rowsInRange db s e)).filter
              (fun r => r.date = d)).map Record.amount).sum) :=
        List.map_congr_left (fun d _ => (perm_filter_map_sum _ hperm).symm)
      have hdne : dates (rowsInRange db s e) ≠ [] := by
        obtain ⟨r, hr⟩ := List.exists_mem_of_ne_nil _ h0
        exact List.ne_nil_of_mem (List.mem_dedup.2 (List.mem_map_of_mem _ hr))
      have hie : ((dates (rowsInRange db s e)).map (dayTotal (rowsInRange db s e))).isEmpty
          = false := by
        rw [List.isEmpty_eq_false]
        intro h
        exact hdne (List.map_eq_nil_iff.1 h)
      rw [hie, if_neg (by simp), hmap, List.length_map]


theorem digitChar_spec {d : Nat} (h : d < 10) :
    (digitChar d).isDigit = true ∧ digitChar d ≠ '-' ∧ (digitChar d).toNat = 48 + d := by
  interval_cases d <;> exact ⟨by decide, by decide, by decide⟩

theorem digitsVal_append (l : List Char) (c : Char) :
    digitsVal (l ++ [c]) = digitsVal l * 10 + (c.toNat - 48) := by
  simp [digitsVal, List.foldl_append]

theorem natDigitsAux_succ (fuel n : Nat) :
    natDigitsAux (fuel + 1) n =
      if n < 10 then [digitChar n]
      else natDigitsAux fuel (n / 10) ++ [digitChar (n % 10)] := rfl

theorem natDigitsAux_spec : ∀ (fuel n k : Nat), n < 10 ^ (fuel + 1) → n < 10 ^ k → 1 ≤ k →
    (∀ c ∈ natDigitsAux (fuel + 1) n, c.isDigit = true ∧ c ≠ '-') ∧
    digitsVal (natDigitsAux (fuel + 1) n) = n ∧
    1 ≤ (natDigitsAux (fuel + 1) n).length ∧ (natDigitsAux (fuel + 1) n).length ≤ k := by
  intro fuel
  induction fuel with
  | zero =>
    intro n k h1 h2 hk
    have hn : n < 10 := by simpa using h1
    rw [natDigitsAux_succ, if_pos hn]
    refine ⟨?_, ?_, by simp, by simp; omega⟩
    · intro c hc
      simp only [List.mem_singleton] at hc
      subst hc
      exact ⟨(digitChar_spec hn).1, (digitChar_spec hn).2.1⟩
    · have := (digitChar_spec hn).2.2
      simp [digitsVal, this]
  | succ fuel ih =>
    intro n k h1 h2 hk
    by_cases hn : n < 10
    · rw [natDigitsAux_succ, if_pos hn]
      refine ⟨?_, ?_, by simp, by simp; omega⟩
      · intro c hc
        simp only [List.mem_singleton] at hc
        subst hc
        exact ⟨(digitChar_spec hn).1, (digitChar_spec hn).2.1⟩
      · have := (digitChar_spec hn).2.2
        simp [digitsVal, this]
    · rw [natDigitsAux_succ, if_neg hn]
      have hd10 : n / 10 < 10 ^ (fuel + 1) := by
        rw [Nat.div_lt_iff_lt_mul (by norm_num)]
        calc n < 10 ^ (fuel + 1 + 1) := h1
        _ = 10 ^ (fuel + 1) * 10 := by rw [pow_succ]
      have hk2 : 2 ≤ k := by
        by_contra hcon
        have hk1 : k = 1 := by omega
        subst hk1
        simp [pow_one] at h2
        omega
      have hdk : n / 10 < 10 ^ (k - 1) := by
        rw [Nat.div_lt_iff_lt_mul (by norm_num)]
        calc n < 10 ^ k := h2
        _ = 10 ^ (k - 1) * 10 := by
            rw [← pow_succ]
            congr 1
            omega
      obtain ⟨hdig, hval, hlen1, hlen2⟩ := ih (n / 10) (k - 1) hd10 hdk (by omega)
      have hmod : n % 10 < 10 := Nat.mod_lt _ (by norm_num)
      refine ⟨?_, ?_, ?_, ?_⟩
      · intro c hc
        rcases List.mem_append.1 hc with hc | hc
        · exact hdig c hc
        · simp only [List.mem_singleton] at hc
          subst hc
          exact ⟨(digitChar_spec hmod).1, (digitChar_spec hmod).2.1⟩
      · rw [digitsVal_append, hval, (digitChar_spec hmod).2.2]
        omega
      · simp only [List.length_append, List.length_singleton]
        omega
      · simp only [List.length_append, List.length_singleton]
        omega

theorem natDigits_spec (n k : Nat) (h : n < 10 ^ k) (hk : 1 ≤ k) :
    (∀ c ∈ natDigits n, c.isDigit = true ∧ c ≠ '-') ∧
    digitsVal (natDigits n) = n ∧
    1 ≤ (natDigits n).length ∧ (natDigits n).length ≤ k := by
  refine natDigitsAux_spec n n k ?_ h hk
  calc n < 10 ^ n := Nat.lt_pow_self (by norm_num) n
  _ ≤ 10 ^ (n + 1) := Nat.pow_le_pow_right (by norm_num) (by omega)

theorem natDigitsAux_length_lower : ∀ (fuel n k : Nat), n < 10 ^ (fuel + 1) → 10 ^ k ≤ n →
    k + 1 ≤ (natDigitsAux (fuel + 1) n).length := by
  intro fuel
  induction fuel with
  | zero =>
    intro n k h1 h2
    have hn : n < 10 := by simpa using h1
    have hk : k = 0 := by
      by_contra hc
      have : 10 ≤ 10 ^ k := by
        calc (10 : Nat) = 10 ^ 1 := (pow_one 10).symm
        _ ≤ 10 ^ k := Nat.pow_le_pow_right (by norm_num) (by omega)
      omega
    subst hk
    rw [natDigitsAux_succ, if_pos hn]
    simp
  | succ fuel ih =>
    intro n k h1 h2
    by_cases hn : n < 10
    · have hk : k = 0 := by
        by_contra hc
        have : 10 ≤ 10 ^ k := by
          calc (10 : Nat) = 10 ^ 1 := (pow_one 10).symm
          _ ≤ 10 ^ k := Nat.pow_le_pow_right (by norm_num) (by omega)
        omega
      subst hk
      rw [natDigitsAux_succ, if_pos hn]
      simp
    · rw [natDigitsAux_succ, if_neg hn]
      rcases Nat.eq_zero_or_pos k with rfl | hkpos
      · simp only [List.length_append, List.length_singleton]
        omega
      · have hd10 : n / 10 < 10 ^ (fuel + 1) := by
          rw [Nat.div_lt_iff_lt_mul (by norm_num)]
          calc n < 10 ^ (fuel + 1 + 1) := h1
          _ = 10 ^ (fuel + 1) * 10 := by rw [pow_succ]
        have hdk : 10 ^ (k - 1) ≤ n / 10 := by
          rw [Nat.le_div_iff_mul_le (by norm_num)]
          calc 10 ^ (k - 1) * 10 = 10 ^ k := by rw [← pow_succ]; congr 1; omega
          _ ≤ n := h2
        have hlow := ih (n / 10) (k - 1) hd10 hdk
        simp only [List.length_append, List.length_singleton]
        omega

theorem natDigits_length_four (y : Nat) (hy1 : 1000 ≤ y) (hy2 : y ≤ 9999) :
    (natDigits y).length = 4 := by
  have hup : (natDigits y).length ≤ 4 :=
    (natDigits_spec y 4 (by norm_num; omega) (by norm_num)).2.2.2
  have hlow : 3 + 1 ≤ (natDigits y).length := by
    refine natDigitsAux_length_lower y y 3 ?_ (by norm_num; omega)
    calc y < 10 ^ y := Nat.lt_pow_self (by norm_num) y
    _ ≤ 10 ^ (y + 1) := Nat.pow_le_pow_right (by norm_num) (by omega)
  omega

theorem splitOnChar_cons (sep c : Char) (cs : List Char) :
    splitOnChar sep (c :: cs) =
      if c = sep then [] :: splitOnChar sep cs
      else
        match splitOnChar sep cs with
        | [] => [[c]]
        | g :: gs => (c :: g) :: gs := rfl

theorem splitOnChar_append (sep : Char) (l rest : List Char) (h : ∀ c ∈ l, c ≠ sep) :
    splitOnChar sep (l ++ sep :: rest) = l :: splitOnChar sep rest := by
  induction l with
  | nil => simp [splitOnChar_cons, splitOnChar]
  | cons c cs ih =>
    have hc : c ≠ sep := h c (by simp)
    have ih2 := ih (fun x hx => h x (by simp [hx]))
    rw [List.cons_append, splitOnChar_cons, if_neg hc, ih2]

theorem splitOnChar_no_sep (sep : Char) (l : List Char) (h : ∀ c ∈ l, c ≠ sep) :
    splitOnChar sep l = [l] := by
  induction l with
  | nil => rfl
  | cons c cs ih =>
    have hc : c ≠ sep := h c (by simp)
    have ih2 := ih (fun x hx => h x (by simp [hx]))
    rw [splitOnChar_cons, if_neg hc, ih2]


theorem month_group_spec (m : Nat) (hm1 : 1 ≤ m) (hm2 : m ≤ 12) :
    (∀ c ∈ (zfill 2 (natStr m)).data, c.isDigit = true ∧ c ≠ '-') ∧
    digitsVal (zfill 2 (natStr m)).data = m ∧
    (zfill 2 (natStr m)).data.length = 2 := by
  interval_cases m <;> exact ⟨by decide, by decide, by decide⟩

theorem monthStartStr_data (y m : Nat) :
    (monthStartStr y m).data =
      natDigits y ++ '-' :: ((zfill 2 (natStr m)).data ++ '-' :: ['0', '1']) := by
  simp [monthStartStr, String.data_append, natStr, zfill]

theorem monthEndStr_data (y m : Nat) :
    (monthEndStr y m).data =
      natDigits y ++ '-' :: ((zfill 2 (natStr m)).data ++ '-' :: ['3', '1']) := by
  simp [monthEndStr, String.data_append, natStr, zfill]

theorem one_le_daysInMonth (y m : Nat) : 1 ≤ daysInMonth y m := by
  unfold daysInMonth
  split_ifs <;> norm_num

theorem split_monthStartStr (y m : Nat) (hy2 : y ≤ 9999) (hm1 : 1 ≤ m) (hm2 : m ≤ 12) :
    splitOnChar '-' (monthStartStr y m).data =
      [natDigits y, (zfill 2 (natStr m)).data, ['0', '1']] := by
  have hy4 : y < 10 ^ 4 := by norm_num; omega
  rw [monthStartStr_data]
  rw [splitOnChar_append '-' (natDigits y) _
    (fun c hc => ((natDigits_spec y 4 hy4 (by norm_num)).1 c hc).2)]
  rw [splitOnChar_append '-' (zfill 2 (natStr m)).data _
    (fun c hc => ((month_group_spec m hm1 hm2).1 c hc).2)]
  rw [splitOnChar_no_sep '-' ['0', '1'] (by decide)]

theorem split_monthEndStr (y m : Nat) (hy2 : y ≤ 9999) (hm1 : 1 ≤ m) (hm2 : m ≤ 12) :
    splitOnChar '-' (monthEndStr y m).data =
      [natDigits y, (zfill 2 (natStr m)).data, ['3', '1']] := by
  have hy4 : y < 10 ^ 4 := by norm_num; omega
  rw [monthEndStr_data]
  rw [splitOnChar_append '-' (natDigits y) _
    (fun c hc => ((natDigits_spec y 4 hy4 (by norm_num)).1 c hc).2)]
  rw [splitOnChar_append '-' (zfill 2 (natStr m)).data _
    (fun c hc => ((month_group_spec m hm1 hm2).1 c hc).2)]
  rw [splitOnChar_no_sep '-' ['3', '1'] (by decide)]

theorem validDate_monthStart (y m : Nat) (hy1 : 1000 ≤ y) (hy2 : y ≤ 9999)
    (hm1 : 1 ≤ m) (hm2 : m ≤ 12) : validDate (monthStartStr y m) = true := by
  have hy4 : y < 10 ^ 4 := by norm_num; omega
  obtain ⟨hydig, hyval, hylen1, hylen2⟩ := natDigits_spec y 4 hy4 (by norm_num)
  obtain ⟨hmdig, hmval, hmlen⟩ := month_group_spec m hm1 hm2
  rw [validDate, split_monthStartStr y m hy2 hm1 hm2]
  have g1 : yearGroupOK (natDigits y) = true := by
    simp only [yearGroupOK, Bool.and_eq_true, List.all_eq_true, decide_eq_true_eq]
    exact ⟨fun c hc => (hydig c hc).1, natDigits_length_four y hy1 hy2⟩
  have g2 : groupOK (zfill 2 (natStr m)).data 2 = true := by
    simp only [groupOK, Bool.and_eq_true, List.all_eq_true, decide_eq_true_eq]
    exact ⟨⟨fun c hc => (hmdig c hc).1, by omega⟩, by omega⟩
  have g4 : validYMD (digitsVal (natDigits y)) (digitsVal (zfill 2 (natStr m)).data)
      (digitsVal ['0', '1']) = true := by
    rw [hyval, hmval, (show digitsVal ['0', '1'] = 1 by decide)]
    simp only [validYMD, Bool.and_eq_true, decide_eq_true_eq]
    exact ⟨⟨⟨⟨⟨by omega, hy2⟩, hm1⟩, hm2⟩, by norm_num⟩, one_le_daysInMonth y m⟩
  have g3 : groupOK ['0', '1'] 2 = true := by decide
  simp [g1, g2, g3, g4]

theorem validDate_monthStart_smallYear (y m : Nat) (hy0 : y < 1000)
    (hm1 : 1 ≤ m) (hm2 : m ≤ 12) : validDate (monthStartStr y m) = false := by
  rw [validDate, split_monthStartStr y m (by omega) hm1 hm2]
  have hlen3 : (natDigits y).length ≤ 3 :=
    (natDigits_spec y 3 (by norm_num; omega) (by norm_num)).2.2.2
  have g1 : yearGroupOK (natDigits y) = false := by
    simp [yearGroupOK, show (natDigits y).length ≠ 4 by omega]
  simp [g1]


theorem daysInMonth_of_31 (y m : Nat)
    (h : m = 1 ∨ m = 3 ∨ m = 5 ∨ m = 7 ∨ m = 8 ∨ m = 10 ∨ m = 12) :
    daysInMonth y m = 31 := by
  rcases h with rfl | rfl | rfl | rfl | rfl | rfl | rfl <;> rfl

theorem daysInMonth_lt_31 (y m : Nat)
    (h : m = 2 ∨ m = 4 ∨ m = 6 ∨ m = 9 ∨ m = 11) :
    daysInMonth y m < 31 := by
  rcases h with rfl | rfl | rfl | rfl | rfl
  · cases hl : isLeap y <;> simp [daysInMonth, hl]
  · norm_num [daysInMonth]
  · norm_num [daysInMonth]
  · norm_num [daysInMonth]
  · norm_num [daysInMonth]

theorem validDate_monthEnd31 (y m : Nat) (hy1 : 1000 ≤ y) (hy2 : y ≤ 9999)
    (hm1 : 1 ≤ m) (hm2 : m ≤ 12)
    (h31 : m = 1 ∨ m = 3 ∨ m = 5 ∨ m = 7 ∨ m = 8 ∨ m = 10 ∨ m = 12) :
    validDate (monthEndStr y m) = true := by
  have hy4 : y < 10 ^ 4 := by norm_num; omega
  obtain ⟨hydig, hyval, hylen1, hylen2⟩ := natDigits_spec y 4 hy4 (by norm_num)
  obtain ⟨hmdig, hmval, hmlen⟩ := month_group_spec m hm1 hm2
  rw [validDate, split_monthEndStr y m hy2 hm1 hm2]
  have g1 : yearGroupOK (natDigits y) = true := by
    simp only [yearGroupOK, Bool.and_eq_true, List.all_eq_true, decide_eq_true_eq]
    exact ⟨fun c hc => (hydig c hc).1, natDigits_length_four y hy1 hy2⟩
  have g2 : groupOK (zfill 2 (natStr m)).data 2 = true := by
    simp only [groupOK, Bool.and_eq_true, List.all_eq_true, decide_eq_true_eq]
    exact ⟨⟨fun c hc => (hmdig c hc).1, by omega⟩, by omega⟩
  have g4 : validYMD (digitsVal (natDigits y)) (digitsVal (zfill 2 (natStr m)).data)
      (digitsVal ['3', '1']) = true := by
    rw [hyval, hmval, (show digitsVal ['3', '1'] = 31 by decide)]
    simp only [validYMD, Bool.and_eq_true, decide_eq_true_eq]
    exact ⟨⟨⟨⟨⟨by omega, hy2⟩, hm1⟩, hm2⟩, by norm_num⟩, le_of_eq (daysInMonth_of_31 y m h31).symm⟩
  have g3 : groupOK ['3', '1'] 2 = true := by decide
  simp [g1, g2, g3, g4]

theorem validDate_monthEndShort (y m : Nat) (hy2 : y ≤ 9999) (hm1 : 1 ≤ m) (hm2 : m ≤ 12)
    (hshort : m = 2 ∨ m = 4 ∨ m = 6 ∨ m = 9 ∨ m = 11) :
    validDate (monthEndStr y m) = false := by
  rw [validDate, split_monthEndStr y m hy2 hm1 hm2]
  have hmval := (month_group_spec m hm1 hm2).2.1
  have g4 : validYMD (digitsVal (natDigits y)) (digitsVal (zfill 2 (natStr m)).data)
      (digitsVal ['3', '1']) = false := by
    rw [hmval, (show digitsVal ['3', '1'] = 31 by decide)]
    have hlt := daysInMonth_lt_31 (digitsVal (natDigits y)) m hshort
    have hnot : ¬ (31 ≤ daysInMonth (digitsVal (natDigits y)) m) := Nat.not_le.2 hlt
    simp [validYMD, hnot]
  simp [g4]

/-- C1 as amended: monthly_report builds the literal day-01 and day-31
bounds with the unpadded year and returns exactly what summarize returns on
them.  For four-digit years (1000..9999) and 31-day months that is the
non-error grouped summary; for four-digit years and shorter months the
day-31 end bound fails date validation inside summarize and an error result
is returned; and for years below 1000 even the start bound fails validation
(strptime %Y matches exactly four digits), so every month returns an error
result. -/
theorem monthly_report_literal_bounds (db : DB) (y m : Nat)
    (_hy1 : 1 ≤ y) (hy2 : y ≤ 9999) (hm1 : 1 ≤ m) (hm2 : m ≤ 12) :
    monthly_report db y m = summarize db (monthStartStr y m) (monthEndStr y m) none ∧
    (1000 ≤ y → (m = 1 ∨ m = 3 ∨ m = 5 ∨ m = 7 ∨ m = 8 ∨ m = 10 ∨ m = 12) →
      monthly_report db y m =
        .ok (groupTotals (rowsInRange db (monthStartStr y m) (monthEndStr y m)))) ∧
    (1000 ≤ y → (m = 2 ∨ m = 4 ∨ m = 6 ∨ m = 9 ∨ m = 11) →
      monthly_report db y m = .error ("Date must be in YYYY-MM-DD format")) ∧
    (y < 1000 →
      monthly_report db y m = .error ("Date must be in YYYY-MM-DD format")) := by
  refine ⟨rfl, ?_, ?_, ?_⟩
  · intro hy0 h31
    unfold monthly_report
    exact summarize_ok db _ _ (validDate_monthStart y m hy0 hy2 hm1 hm2)
      (validDate_monthEnd31 y m hy0 hy2 hm1 hm2 h31)
  · intro hy0 hshort
    unfold monthly_report
    exact summarize_err_end db _ _ none (validDate_monthStart y m hy0 hy2 hm1 hm2)
      (validDate_monthEndShort y m hy2 hm1 hm2 hshort)
  · intro hy0
    unfold monthly_report
    exact summarize_err_start db _ _ none (validDate_monthStart_smallYear y m hy0 hm1 hm2)

/-- C1 counterexample: February 2024 holds a record and summarize over the
true month range returns its summary, yet monthly_report for that month
returns an error result because the constructed end bound is not a valid
date. -/
theorem monthly_report_short_month_counterexample :
    monthly_report febDB 2024 2 = .error ("Date must be in YYYY-MM-DD format") ∧
    summarize febDB ("2024-02-01") ("2024-02-29") none = .ok [⟨"Food", 20⟩] := by
  constructor
  · unfold monthly_report
    exact summarize_err_end febDB _ _ none (by decide) (by decide)
  · rw [summarize_ok febDB _ _ (by decide) (by decide)]
    norm_num [groupTotals, rowsInRange, febDB, inRange, cats, totalFor,
      List.insertionSort, List.filter, List.dedup,
      (show strLE ("2024-02-01") "2024-02-10" = true by decide),
      (show strLE ("2024-02-10") "2024-02-29" = true by decide)]


/-- Witness for C1 at year 2024, month 1. -/
theorem monthly_report_literal_bounds_witness :
    (1 ≤ 2024 ∧ 2024 ≤ 9999 ∧ 1 ≤ 1 ∧ 1 ≤ 12) ∧
    (monthly_report db1 2024 1 = summarize db1 (monthStartStr 2024 1) (monthEndStr 2024 1) none ∧
    (1000 ≤ 2024 → (1 = 1 ∨ 1 = 3 ∨ 1 = 5 ∨ 1 = 7 ∨ 1 = 8 ∨ 1 = 10 ∨ 1 = 12) →
      monthly_report db1 2024 1 =
        .ok (groupTotals (rowsInRange db1 (monthStartStr 2024 1) (monthEndStr 2024 1)))) ∧
    (1000 ≤ 2024 → (1 = 2 ∨ 1 = 4 ∨ 1 = 6 ∨ 1 = 9 ∨ 1 = 11) →
      monthly_report db1 2024 1 = .error ("Date must be in YYYY-MM-DD format")) ∧
    (2024 < 1000 →
      monthly_report db1 2024 1 = .error ("Date must be in YYYY-MM-DD format"))) :=
  ⟨⟨by norm_num, by norm_num, by norm_num, by norm_num⟩,
    monthly_report_literal_bounds db1 2024 1 (by norm_num) (by norm_num) (by norm_num) (by norm_num)⟩

/-- Witness for C3 at limit 2 over a store with one record. -/
theorem top_spending_categories_limit_witness :
    (validDate ("2024-01-01") = true ∧ validDate ("2024-01-31") = true) ∧
    (∃ entries, summarize db1 ("2024-01-01") ("2024-01-31") none = .ok entries ∧
      top_spending_categories db1 ("2024-01-01") ("2024-01-31") 2 =
        .ok (if (2 : Int) < 0 then entries else entries.take (2 : Int).toNat)) :=
  ⟨⟨by decide, by decide⟩,
    top_spending_categories_limit db1 ("2024-01-01") ("2024-01-31") 2 (by decide) (by decide)⟩

/-- Witness for C4 on the empty store. -/
theorem add_expense_persists_exact_amount_witness :
    (validDate ("2024-03-05") = true ∧ DB.empty.WF) ∧
    (∃ (i : Nat) (db' : DB) (r : Record),
      add_expense DB.empty ("2024-03-05") (7/2) ("Food") ("") ("") = (.ok i, db') ∧
      read_expense db' i = .found r ∧ r.amount = 7/2) :=
  ⟨⟨by decide, by simp [DB.WF, DB.empty]⟩,
    add_expense_persists_exact_amount DB.empty ("2024-03-05") (7/2) ("Food") ("") ("")
      (by decide) (by simp [DB.WF, DB.empty])⟩

/-- Witness for C5 on the empty store. -/
theorem add_then_read_roundtrip_witness :
    (validDate ("2024-03-01") = true ∧ ("Food" : String) ≠ "" ∧ DB.empty.WF) ∧
    (∃ (i : Nat) (db' : DB),
      add_expense DB.empty ("2024-03-01") 50 ("Food") ("") ("") = (.ok i, db') ∧
      read_expense db' i = .found ⟨i, "2024-03-01", 50, "Food", "", ""⟩) :=
  ⟨⟨by decide, by decide, by simp [DB.WF, DB.empty]⟩,
    add_then_read_roundtrip DB.empty ("2024-03-01") 50 ("Food") ("") ("")
      (by decide) (by decide) (by simp [DB.WF, DB.empty])⟩

/-- Witness for C6 on the three-record scenario store. -/
theorem summarize_matches_list_expenses_witness :
    (validDate ("2024-03-01") = true ∧ validDate ("2024-03-02") = true) ∧
    (∃ (rows : List Record) (entries : List CatTotal),
      list_expenses scenarioDB ("2024-03-01") ("2024-03-02") = .ok rows ∧
      summarize scenarioDB ("2024-03-01") ("2024-03-02") none = .ok entries ∧
      (∀ c : String, (∃ t, CatTotal.mk c t ∈ entries) ↔ c ∈ rows.map Record.category) ∧
      (entries.map CatTotal.category).Nodup ∧
      (∀ ct ∈ entries,
        ct.total = ((rows.filter (fun r => r.category = ct.category)).map Record.amount).sum) ∧
      entries.Pairwise (fun a b => b.total ≤ a.total)) :=
  ⟨⟨by decide, by decide⟩,
    summarize_matches_list_expenses scenarioDB ("2024-03-01") ("2024-03-02") (by decide) (by decide)⟩

/-- Witness for C7 on the scenario store with limit 100. -/
theorem budget_alert_threshold_witness :
    (validDate ("2024-03-01") = true ∧ validDate ("2024-03-02") = true) ∧
    (∃ (entries : List CatTotal) (res : BudgetResult),
      summarize scenarioDB ("2024-03-01") ("2024-03-02") none = .ok entries ∧
      budget_alert scenarioDB ("2024-03-01") ("2024-03-02") 100 = .ok res ∧
      res.total_spent = (entries.map CatTotal.total).sum ∧
      res.budget_limit = 100 ∧
      (res.status = "ALERT" ↔ 100 < res.total_spent) ∧
      (res.total_spent = 100 → res.status = "SAFE")) :=
  ⟨⟨by decide, by decide⟩,
    budget_alert_threshold scenarioDB ("2024-03-01") ("2024-03-02") 100 (by decide) (by decide)⟩

/-- Witness for C8 on the scenario store. -/
theorem daily_average_mean_of_days_witness :
    (validDate ("2024-03-01") = true ∧ validDate ("2024-03-02") = true) ∧
    (∃ rows : List Record,
      list_expenses scenarioDB ("2024-03-01") ("2024-03-02") = .ok rows ∧
      (rows = [] → daily_average scenarioDB ("2024-03-01") ("2024-03-02") = .ok 0) ∧
      (rows ≠ [] → ∃ days : List String,
        days ≠ [] ∧ days.Nodup ∧ (∀ d, d ∈ days ↔ d ∈ rows.map Record.date) ∧
        daily_average scenarioDB ("2024-03-01") ("2024-03-02") =
          .ok (round2 ((days.map (fun d =>
              ((rows.filter (fun r => r.date = d)).map Record.amount).sum)).sum
            / (days.length : ℚ))))) :=
  ⟨⟨by decide, by decide⟩,
    daily_average_mean_of_days scenarioDB ("2024-03-01") ("2024-03-02") (by decide) (by decide)⟩

end ExpenseTracker
